import Mathlib

/-!
Verification of the book-catalog core of the `meboook` repository.

The development embeds, as executable Lean definitions:
* the `books` row type (`src/types/Book.ts`, `Database` row and the README schema);
* the submit handler of `src/components/BookForm.tsx` (`handleSubmit`), with the
  external storage/service calls supplied as an oracle environment and recorded
  as an event trace;
* the owner-scoped fetch, ordering and client-side filtering of
  `src/components/Dashboard.tsx` (`loadBooks`);
* the service layer (`bookService` / repository), which is not present in the
  sources and is therefore modelled from the specification where a claim needs it.
-/

namespace Meboook

/-- A row of the `books` table.  Field set follows the README schema and the
fields the components read (`id`, `name`, `category`, `price`, `description`,
`user_id`, `image_url`, `file_url`, `file_name`, `file_size`, `created_at`,
`updated_at`).  Opaque ids and ISO timestamps are modelled as naturals
(ISO-8601 string order agrees with chronological order); JS numbers carrying
prices are modelled as rationals. -/
structure Book where
  id : Nat
  name : String
  category : String
  price : Rat
  description : String
  user_id : Nat
  image_url : String
  file_url : String
  file_name : String
  file_size : Nat
  created_at : Nat
  updated_at : Nat
deriving Repr, DecidableEq

/-- `BookFilters` from `src/types/Book.ts`: all four fields optional. -/
structure BookFilters where
  search : Option String
  category : Option String
  minPrice : Option Rat
  maxPrice : Option Rat
deriving Repr, DecidableEq

/-- The empty filter object `{}`. -/
def noFilters : BookFilters :=
  { search := none, category := none, minPrice := none, maxPrice := none }

/-! ### JavaScript string primitives used by the components -/

/-- The whitespace characters removed by `String.prototype.trim` (ASCII part:
space, tab, LF, VT, FF, CR). -/
def jsIsWhite (c : Char) : Bool :=
  c == ' ' || c == '\t' || c == '\n' || c == '\r' || c.toNat == 11 || c.toNat == 12

/-- `String.prototype.trim`: drop whitespace from both ends. -/
def jsTrim (s : String) : String :=
  ⟨((s.data.dropWhile jsIsWhite).reverse.dropWhile jsIsWhite).reverse⟩

/-- `String.prototype.toLowerCase`, on the ASCII fragment the app manipulates. -/
def strLower (s : String) : String :=
  ⟨s.data.map Char.toLower⟩

/-- `needle` is an initial segment of `hay`. -/
def charsLeads : List Char → List Char → Bool
  | [], _ => true
  | _ :: _, [] => false
  | a :: as, b :: bs => a == b && charsLeads as bs

/-- `needle` occurs contiguously inside `hay`. -/
def charsHasSub (hay needle : List Char) : Bool :=
  match hay with
  | [] => charsLeads needle []
  | _ :: t => charsLeads needle hay || charsHasSub t needle

/-- `String.prototype.includes`. -/
def strIncludes (hay needle : String) : Bool :=
  charsHasSub hay.data needle.data

/-! ### Client-side filtering (`Dashboard.tsx`, `loadBooks`, lines 65-88)

The four filter fields are applied one after another; a JS-falsy `search` or
`category` (absent, or the empty string) skips its step, and `minPrice` /
`maxPrice` are applied whenever not `undefined`. -/

/-- `if (filters.search) { ... name.toLowerCase().includes(searchLower) || description... }` -/
def applySearchFilter (f : BookFilters) (bs : List Book) : List Book :=
  match f.search with
  | some s =>
    if s == "" then bs
    else
      let searchLower := strLower s
      bs.filter fun b =>
        strIncludes (strLower b.name) searchLower ||
          strIncludes (strLower b.description) searchLower
  | none => bs

/-- `if (filters.category) { ... book.category === filters.category }` -/
def applyCategoryFilter (f : BookFilters) (bs : List Book) : List Book :=
  match f.category with
  | some c => if c == "" then bs else bs.filter fun b => b.category == c
  | none => bs

/-- `if (filters.minPrice !== undefined) { ... book.price >= filters.minPrice }` -/
def applyMinFilter (f : BookFilters) (bs : List Book) : List Book :=
  match f.minPrice with
  | some m => bs.filter fun b => decide (m ≤ b.price)
  | none => bs

/-- `if (filters.maxPrice !== undefined) { ... book.price <= filters.maxPrice }` -/
def applyMaxFilter (f : BookFilters) (bs : List Book) : List Book :=
  match f.maxPrice with
  | some m => bs.filter fun b => decide (b.price ≤ m)
  | none => bs

/-- The whole client-side filtering block, in source order:
search, then category, then minPrice, then maxPrice. -/
def applyFilters (f : BookFilters) (bs : List Book) : List Book :=
  applyMaxFilter f (applyMinFilter f (applyCategoryFilter f (applySearchFilter f bs)))

/-! ### Ordering (`Dashboard.tsx` line 59)

The fetch requests `.order('created_at', { ascending: false })` — descending
`created_at` and nothing else; no secondary sort key is specified.  The
ordering is realised here by a stable insertion sort on that single key. -/

/-- The requested row order: `created_at` descending. -/
def createdDesc (a b : Book) : Prop := b.created_at ≤ a.created_at

instance : DecidableRel createdDesc := fun _ _ => Nat.decLe _ _

instance : IsTotal Book createdDesc :=
  ⟨fun a b => Nat.le_total b.created_at a.created_at⟩

instance : IsTrans Book createdDesc :=
  ⟨fun _ _ _ h1 h2 => le_trans h2 h1⟩

/-- Rows sorted by `created_at` descending (the only key the query names). -/
def sortByCreatedDesc (bs : List Book) : List Book :=
  List.insertionSort createdDesc bs

/-- `loadBooks` for the writers dashboard: rows of the current user
(`.eq('user_id', user.id)`), ordered by `created_at` descending, then the
client-side filters. -/
def loadBooksFor (st : List Book) (uid : Nat) (f : BookFilters) : List Book :=
  applyFilters f (sortByCreatedDesc (st.filter fun b => b.user_id == uid))

/-! ### The submit handler (`BookForm.tsx`, `handleSubmit`, lines 453-519)

The handler parses the price, keeps the existing asset fields of the book
being edited, uploads the newly selected cover image and/or book file, and
then calls `bookService.updateBook` / `createBook` with the assembled request.
The external calls are supplied by an oracle environment (`SubmitEnv`): each
field holds the value the corresponding `await` would produce when reached.
Calls actually made are recorded in order as an event trace. -/

/-- The payload `handleSubmit` passes to `bookService.createBook`
(`BookForm.tsx` lines 500-509). -/
structure CreateBookRequest where
  name : String
  category : String
  price : Rat
  description : String
  image_url : String
  file_url : String
  file_name : String
  file_size : Nat
deriving Repr, DecidableEq

/-- The payload `handleSubmit` passes to `bookService.updateBook`
(`BookForm.tsx` lines 486-496). -/
structure UpdateBookRequest where
  id : Nat
  name : String
  category : String
  price : Rat
  description : String
  image_url : String
  file_url : String
  file_name : String
  file_size : Nat
deriving Repr, DecidableEq

/-- Result of `storageService.uploadBookFile`: `{url, fileName, fileSize}`. -/
structure UploadedFileData where
  url : String
  fileName : String
  fileSize : Nat
deriving Repr, DecidableEq

instance {ε α : Type} [DecidableEq ε] [DecidableEq α] : DecidableEq (Except ε α) := fun a b =>
  match a, b with
  | Except.ok x, Except.ok y =>
    if h : x = y then isTrue (by rw [h]) else isFalse (by intro hc; cases hc; exact h rfl)
  | Except.error x, Except.error y =>
    if h : x = y then isTrue (by rw [h]) else isFalse (by intro hc; cases hc; exact h rfl)
  | Except.ok _, Except.error _ => isFalse (by intro hc; cases hc)
  | Except.error _, Except.ok _ => isFalse (by intro hc; cases hc)

/-- Oracle for the awaited external calls: the outcome of the cover-image
upload, of the book-file upload, and of the `bookService` create/update call,
should each be reached.  An `Except.error` models a rejected promise. -/
structure SubmitEnv where
  imageUpload : Except String String
  fileUpload : Except String UploadedFileData
  serviceResult : Except String Unit
deriving Repr, DecidableEq

/-- External calls `handleSubmit` performs, in order. -/
inductive SubmitEvent where
  | uploadImage
  | uploadFile
  | callUpdate (r : UpdateBookRequest)
  | callCreate (r : CreateBookRequest)
deriving Repr, DecidableEq

/-- The component's form state as `handleSubmit` reads it.  `priceParsed`
is the value of `parseFloat(formData.price)`: `none` when the parse yields
`NaN`, `some p` otherwise. -/
structure FormData where
  name : String
  category : String
  priceParsed : Option Rat
  description : String
deriving Repr, DecidableEq

/-- `handleSubmit` itself.  `book` is the book being edited (`none` when
creating), `imageFile` / `bookFile` say whether a new cover / book file was
selected.  Returns the trace of external calls made and the outcome: `ok`
when the handler reaches `onSave()`, `error msg` when it lands in the
`catch` with `err.message = msg`. -/
def handleSubmit (book : Option Book) (fd : FormData) (imageFile bookFile : Bool)
    (env : SubmitEnv) : List SubmitEvent × Except String Unit :=
  match fd.priceParsed with
  | none => ([], Except.error "Please enter a valid price")
  | some price =>
    if price < 0 then ([], Except.error "Please enter a valid price")
    else
      -- let imageUrl = book?.image_url || ''; ... let fileSize = book?.file_size || 0;
      let fileUrl0 := (book.map Book.file_url).getD ""
      let fileName0 := (book.map Book.file_name).getD ""
      let fileSize0 := (book.map Book.file_size).getD 0
      -- if (imageFile) { imageUrl = await storageService.uploadBookImage(imageFile, tempId); }
      let step1 : List SubmitEvent × Except String String :=
        if imageFile then ([SubmitEvent.uploadImage], env.imageUpload)
        else ([], Except.ok ((book.map Book.image_url).getD ""))
      match step1 with
      | (tr1, Except.error e) => (tr1, Except.error e)
      | (tr1, Except.ok imageUrl) =>
        -- if (bookFile) { const fileData = await storageService.uploadBookFile(...); ... }
        let step2 : List SubmitEvent × Except String (String × String × Nat) :=
          if bookFile then
            (tr1 ++ [SubmitEvent.uploadFile],
              env.fileUpload.map fun d => (d.url, d.fileName, d.fileSize))
          else (tr1, Except.ok (fileUrl0, fileName0, fileSize0))
        match step2 with
        | (tr2, Except.error e) => (tr2, Except.error e)
        | (tr2, Except.ok (fileUrl, fileName, fileSize)) =>
          match book with
          | some b =>
            let updateData : UpdateBookRequest :=
              { id := b.id, name := jsTrim fd.name, category := fd.category,
                price := price, description := jsTrim fd.description,
                image_url := imageUrl, file_url := fileUrl,
                file_name := fileName, file_size := fileSize }
            (tr2 ++ [SubmitEvent.callUpdate updateData], env.serviceResult)
          | none =>
            let createData : CreateBookRequest :=
              { name := jsTrim fd.name, category := fd.category, price := price,
                description := jsTrim fd.description, image_url := imageUrl,
                file_url := fileUrl, file_name := fileName, file_size := fileSize }
            (tr2 ++ [SubmitEvent.callCreate createData], env.serviceResult)

/-- `true` on the events that write book metadata (the `bookService`
create/update calls). -/
def isWriteEvent : SubmitEvent → Bool
  | SubmitEvent.callUpdate _ => true
  | SubmitEvent.callCreate _ => true
  | _ => false

/-- A metadata write, when present, is the last external call of the trace. -/
def writesOnlyLast (tr : List SubmitEvent) : Bool :=
  tr.dropLast.all fun ev => !isWriteEvent ev

/-- The form state `useEffect` installs when the modal opens on an existing
book (`BookForm.tsx` lines 400-408): the book's own fields; the price input
holds `book.price.toString()`, which `parseFloat` parses back to the same
number. -/
def formFromBook (b : Book) : FormData :=
  { name := b.name, category := b.category, priceParsed := some b.price,
    description := b.description }

/-- The `required={!book}` attribute on the book-file input
(`BookForm.tsx` line 673): the file field is required exactly when creating. -/
def bookFileRequiredAttr (book : Option Book) : Bool :=
  book.isNone

/-! ### The service layer

`src/services/bookService.ts` and `src/services/storageService.ts` are not
among the repository sources; only their callers are.  The definitions in
this section are therefore modelled from the specification (§4.2-§4.3 and the
README's row-level-security description: public read, owner-only write). -/

/-- Error taxonomy of spec §7 (the constructors a modelled call can return). -/
inductive SvcError where
  | validation (msg : String)
  | forbidden
  | notFound
deriving Repr, DecidableEq

/-- The category list offered by the form (`BookForm.tsx`, `commonCategories`). -/
def commonCategories : List String :=
  ["Fiction", "Non-Fiction", "Science Fiction", "Fantasy", "Mystery", "Romance",
   "Thriller", "Biography", "History", "Science", "Technology", "Business",
   "Self-Help", "Health", "Travel", "Cooking", "Art", "Religion", "Philosophy",
   "Education", "Children", "Young Adult", "Poetry", "Drama", "Horror"]

/-- Modelled from the spec: the field-validity condition of §4.3 step 1
(non-empty name of at most 255 characters, category in the known set,
price between 0 and 99999.99 inclusive, description of at most 1000
characters). -/
def validFields (r : CreateBookRequest) : Bool :=
  !(r.name == "") && r.name.length ≤ 255 && commonCategories.contains r.category &&
    0 ≤ r.price && r.price ≤ mkRat 9999999 100 && r.description.length ≤ 1000

/-- Modelled from the spec: `bookService.createBook` (absent from the
sources) inserts the fully formed record — `ownerId = actorId`, locators
from the request, both timestamps set to now — and returns the created
book (§4.3 steps 5-6; the repository itself performs no field validation,
§4.2).  Ids are caller-supplied here; the repository guarantees freshness. -/
def createBook (st : List Book) (actor newId now : Nat) (r : CreateBookRequest) :
    List Book × Book :=
  let b : Book :=
    { id := newId, name := r.name, category := r.category, price := r.price,
      description := r.description, user_id := actor, image_url := r.image_url,
      file_url := r.file_url, file_name := r.file_name, file_size := r.file_size,
      created_at := now, updated_at := now }
  (b :: st, b)

/-- Modelled from the spec: `bookService.getBookById` / `getPublic` returns
any book regardless of owner, `NotFound` when absent (§4.3). -/
def getBookById (st : List Book) (bookId : Nat) : Except SvcError Book :=
  match st.find? (fun b => b.id == bookId) with
  | some b => Except.ok b
  | none => Except.error SvcError.notFound

/-- Modelled from the spec: `bookService.updateBook` loads the record
(`NotFound` when absent), fails with `Forbidden` unless the actor owns it,
otherwise applies the request fields, keeps `id`, `ownerId` and
`created_at`, and bumps `updated_at` (§4.3). -/
def updateBook (st : List Book) (actor : Nat) (r : UpdateBookRequest) (now : Nat) :
    Except SvcError (List Book × Book) :=
  match st.find? (fun b => b.id == r.id) with
  | none => Except.error SvcError.notFound
  | some b =>
    if b.user_id == actor then
      let b' : Book :=
        { b with name := r.name, category := r.category, price := r.price,
                 description := r.description, image_url := r.image_url,
                 file_url := r.file_url, file_name := r.file_name,
                 file_size := r.file_size, updated_at := now }
      Except.ok (st.map fun x => if x.id == r.id then b' else x, b')
    else Except.error SvcError.forbidden

/-- Modelled from the spec: `bookService.deleteBook` loads the record
(`NotFound` when absent), fails with `Forbidden` unless the actor owns it,
otherwise removes the metadata record (§4.3). -/
def deleteBook (st : List Book) (actor bookId : Nat) : Except SvcError (List Book) :=
  match st.find? (fun b => b.id == bookId) with
  | none => Except.error SvcError.notFound
  | some b =>
    if b.user_id == actor then Except.ok (st.filter fun x => !(x.id == bookId))
    else Except.error SvcError.forbidden

/-- The catalog state after a create call (total: creation always inserts). -/
def runCreate (st : List Book) (actor newId now : Nat) (r : CreateBookRequest) :
    List Book :=
  (createBook st actor newId now r).1

/-- The catalog state after an update call; a failing call leaves it unchanged. -/
def runUpdate (st : List Book) (actor : Nat) (r : UpdateBookRequest) (now : Nat) :
    List Book :=
  match updateBook st actor r now with
  | Except.ok (st', _) => st'
  | Except.error _ => st

/-- The catalog state after a delete call; a failing call leaves it unchanged. -/
def runDelete (st : List Book) (actor bookId : Nat) : List Book :=
  match deleteBook st actor bookId with
  | Except.ok st' => st'
  | Except.error _ => st

/-- A service operation, for quantifying over operation sequences. -/
inductive CatalogOp where
  | create (actor newId now : Nat) (r : CreateBookRequest)
  | update (actor : Nat) (r : UpdateBookRequest) (now : Nat)
  | del (actor bookId : Nat)
deriving Repr

/-- Apply one operation to the catalog. -/
def applyOp (st : List Book) : CatalogOp → List Book
  | CatalogOp.create actor newId now r => runCreate st actor newId now r
  | CatalogOp.update actor r now => runUpdate st actor r now
  | CatalogOp.del actor bookId => runDelete st actor bookId

/-- The catalog reached by a sequence of operations from the empty catalog. -/
def applyOps (ops : List CatalogOp) : List Book :=
  ops.foldl applyOp []

/-- Modelled from the spec: `listByOwner` — the owner's books (§4.2). -/
def listByOwner (st : List Book) (uid : Nat) : List Book :=
  st.filter fun b => b.user_id == uid

/-- The stats record the dashboard displays (`Dashboard.tsx` lines 19-23). -/
structure BookStats where
  totalBooks : Nat
  totalValue : Rat
  categoriesCount : Nat
deriving Repr, DecidableEq

/-- Modelled from the spec: `bookService.getBookStats` / `computeStats` —
a pure aggregation over `listByOwner`: the number of the owner's books, the
sum of their prices, and the number of their distinct categories (§4.3). -/
def getBookStats (st : List Book) (uid : Nat) : BookStats :=
  let bs := listByOwner st uid
  { totalBooks := bs.length,
    totalValue := (bs.map fun b => b.price).sum,
    categoriesCount := ((bs.map fun b => b.category).dedup).length }

/-! ## Claims -/

/-- C8: for every owner and after any sequence of create/update/delete
operations, the computed stats agree with `listByOwner`: `totalBooks` is the
number of the owner's books, `totalValue` the sum of their prices, and the
category count the number of their distinct categories. -/
theorem computeStats_aggregates_listByOwner (ops : List CatalogOp) (uid : Nat) :
    (getBookStats (applyOps ops) uid).totalBooks =
      (listByOwner (applyOps ops) uid).length ∧
    (getBookStats (applyOps ops) uid).totalValue =
      ((listByOwner (applyOps ops) uid).map (fun b => b.price)).sum ∧
    (getBookStats (applyOps ops) uid).categoriesCount =
      ((listByOwner (applyOps ops) uid).map (fun b => b.category)).toFinset.card := by
  refine ⟨rfl, rfl, ?_⟩
  simp only [getBookStats, List.card_toFinset]

/-- C1: for every valid creation input, `create` followed by `getPublic` on
the returned book's id yields a record whose name, category, price and
description equal the creation inputs. -/
theorem create_getPublic_roundtrip (st : List Book) (actor newId now : Nat)
    (r : CreateBookRequest) (hv : validFields r = true) :
    ∃ st' b, createBook st actor newId now r = (st', b) ∧
      getBookById st' b.id = Except.ok b ∧
      b.name = r.name ∧ b.category = r.category ∧ b.price = r.price ∧
      b.description = r.description := by
  refine ⟨_, _, rfl, ?_, rfl, rfl, rfl, rfl⟩
  simp [getBookById, createBook, List.find?]

/-- Creation request used to witness C1. -/
def c1Req : CreateBookRequest :=
  { name := "A Tale", category := "Fiction", price := mkRat 25 2, description := "short",
    image_url := "img", file_url := "url", file_name := "tale.pdf", file_size := 42 }

/-- Witness for C1 at a concrete input. -/
theorem create_getPublic_roundtrip_witness :
    validFields c1Req = true ∧
    (∃ st' b, createBook [] 1 10 100 c1Req = (st', b) ∧
      getBookById st' b.id = Except.ok b ∧
      b.name = c1Req.name ∧ b.category = c1Req.category ∧ b.price = c1Req.price ∧
      b.description = c1Req.description) :=
  ⟨by decide, create_getPublic_roundtrip [] 1 10 100 c1Req (by decide)⟩

/-- C2: update and delete requested by an actor other than the record's
owner fail with `Forbidden` and leave the catalog (hence the record)
unchanged. -/
theorem nonowner_update_delete_forbidden (st : List Book) (actor now : Nat)
    (r : UpdateBookRequest) (b : Book)
    (hfind : st.find? (fun x => x.id == r.id) = some b)
    (hown : ¬ b.user_id = actor) :
    updateBook st actor r now = Except.error SvcError.forbidden ∧
    runUpdate st actor r now = st ∧
    deleteBook st actor r.id = Except.error SvcError.forbidden ∧
    runDelete st actor r.id = st := by
  have h1 : updateBook st actor r now = Except.error SvcError.forbidden := by
    unfold updateBook
    rw [hfind]
    simp [hown]
  have h2 : deleteBook st actor r.id = Except.error SvcError.forbidden := by
    unfold deleteBook
    rw [hfind]
    simp [hown]
  exact ⟨h1, by simp [runUpdate, h1], h2, by simp [runDelete, h2]⟩

/-- Every list contains the empty needle. -/
theorem charsHasSub_nil (hay : List Char) : charsHasSub hay [] = true := by
  cases hay <;> simp [charsHasSub, charsLeads]

/-- `s.includes("")` is true for every `s`. -/
theorem strIncludes_empty (hay : String) : strIncludes hay "" = true :=
  charsHasSub_nil hay.data

theorem strLower_empty : strLower "" = "" := rfl

theorem mem_applySearchFilter {f : BookFilters} {bs : List Book} {b : Book} :
    b ∈ applySearchFilter f bs ↔
      b ∈ bs ∧ (∀ s, f.search = some s →
        (strIncludes (strLower b.name) (strLower s) = true ∨
         strIncludes (strLower b.description) (strLower s) = true)) := by
  cases h : f.search with
  | none => simp [applySearchFilter, h]
  | some s =>
    by_cases he : s = ""
    · subst he
      simp [applySearchFilter, h, strLower_empty, strIncludes_empty]
    · simp [applySearchFilter, h, he, List.mem_filter, Bool.or_eq_true]

theorem mem_applyCategoryFilter {f : BookFilters} {bs : List Book} {b : Book}
    (hcat : ¬ f.category = some "") :
    b ∈ applyCategoryFilter f bs ↔
      b ∈ bs ∧ (∀ c, f.category = some c → b.category = c) := by
  cases h : f.category with
  | none => simp [applyCategoryFilter, h]
  | some c =>
    have hc : ¬ c = "" := fun e => hcat (by rw [h, e])
    simp [applyCategoryFilter, h, hc, List.mem_filter]

theorem mem_applyMinFilter {f : BookFilters} {bs : List Book} {b : Book} :
    b ∈ applyMinFilter f bs ↔
      b ∈ bs ∧ (∀ m, f.minPrice = some m → m ≤ b.price) := by
  cases h : f.minPrice <;> simp [applyMinFilter, h, List.mem_filter]

theorem mem_applyMaxFilter {f : BookFilters} {bs : List Book} {b : Book} :
    b ∈ applyMaxFilter f bs ↔
      b ∈ bs ∧ (∀ m, f.maxPrice = some m → b.price ≤ m) := by
  cases h : f.maxPrice <;> simp [applyMaxFilter, h, List.mem_filter]

/-- C4: the filtering block returns exactly the candidates satisfying the
conjunction of the provided predicates — case-insensitive substring search
against name or description, exact category match, inclusive price bounds —
and absent fields impose no constraint.  The hypothesis excludes
`category = some ""`, which the dashboard never produces
(`handleFilterChange` maps the empty selection to `undefined`). -/
theorem query_filter_conjunction (f : BookFilters) (bs : List Book) (b : Book)
    (hcat : ¬ f.category = some "") :
    b ∈ applyFilters f bs ↔
      b ∈ bs ∧
      (∀ s, f.search = some s →
        (strIncludes (strLower b.name) (strLower s) = true ∨
         strIncludes (strLower b.description) (strLower s) = true)) ∧
      (∀ c, f.category = some c → b.category = c) ∧
      (∀ m, f.minPrice = some m → m ≤ b.price) ∧
      (∀ m, f.maxPrice = some m → b.price ≤ m) := by
  unfold applyFilters
  rw [mem_applyMaxFilter, mem_applyMinFilter, mem_applyCategoryFilter hcat,
    mem_applySearchFilter]
  tauto

/-- Fiction book priced 12.50, used to witness C4 (spec §8 scenario). -/
def c4Book : Book :=
  { id := 1, name := "The Great Tale", category := "Fiction", price := mkRat 25 2,
    description := "a story", user_id := 1, image_url := "", file_url := "u",
    file_name := "t.pdf", file_size := 5, created_at := 10, updated_at := 10 }

/-- Filter `{search: "tale", category: "Fiction", minPrice: 10, maxPrice: 15}`,
used to witness C4. -/
def c4Filter : BookFilters :=
  { search := some "tale", category := some "Fiction", minPrice := some 10,
    maxPrice := some 15 }

/-- Witness for C4 at a concrete book and filter. -/
theorem query_filter_conjunction_witness :
    (c4Book ∈ applyFilters c4Filter [c4Book] ↔
      c4Book ∈ [c4Book] ∧
      (∀ s, c4Filter.search = some s →
        (strIncludes (strLower c4Book.name) (strLower s) = true ∨
         strIncludes (strLower c4Book.description) (strLower s) = true)) ∧
      (∀ c, c4Filter.category = some c → c4Book.category = c) ∧
      (∀ m, c4Filter.minPrice = some m → m ≤ c4Book.price) ∧
      (∀ m, c4Filter.maxPrice = some m → c4Book.price ≤ m)) :=
  query_filter_conjunction c4Filter [c4Book] c4Book (by decide)

/-- The search step yields a sublist of its input. -/
theorem applySearchFilter_sublist (f : BookFilters) (bs : List Book) :
    List.Sublist (applySearchFilter f bs) bs := by
  rcases h : f.search with _ | s
  · simp only [applySearchFilter, h]
    exact List.Sublist.refl bs
  · simp only [applySearchFilter, h]
    split
    · exact List.Sublist.refl bs
    · exact List.filter_sublist bs

/-- The category step yields a sublist of its input. -/
theorem applyCategoryFilter_sublist (f : BookFilters) (bs : List Book) :
    List.Sublist (applyCategoryFilter f bs) bs := by
  rcases h : f.category with _ | c
  · simp only [applyCategoryFilter, h]
    exact List.Sublist.refl bs
  · simp only [applyCategoryFilter, h]
    split
    · exact List.Sublist.refl bs
    · exact List.filter_sublist bs

/-- The min-price step yields a sublist of its input. -/
theorem applyMinFilter_sublist (f : BookFilters) (bs : List Book) :
    List.Sublist (applyMinFilter f bs) bs := by
  rcases h : f.minPrice with _ | m
  · simp only [applyMinFilter, h]
    exact List.Sublist.refl bs
  · simp only [applyMinFilter, h]
    exact List.filter_sublist bs

/-- The max-price step yields a sublist of its input. -/
theorem applyMaxFilter_sublist (f : BookFilters) (bs : List Book) :
    List.Sublist (applyMaxFilter f bs) bs := by
  rcases h : f.maxPrice with _ | m
  · simp only [applyMaxFilter, h]
    exact List.Sublist.refl bs
  · simp only [applyMaxFilter, h]
    exact List.filter_sublist bs

/-- The whole filtering block yields a sublist of the candidates. -/
theorem applyFilters_sublist (f : BookFilters) (bs : List Book) :
    List.Sublist (applyFilters f bs) bs :=
  ((applyMaxFilter_sublist f _).trans
    ((applyMinFilter_sublist f _).trans
      (applyCategoryFilter_sublist f _))).trans (applySearchFilter_sublist f bs)

/-- C5 (amended): the dashboard query's result is sorted by `created_at`
descending — the only ordering the code requests. -/
theorem query_sorted_createdAt_desc (st : List Book) (uid : Nat) (f : BookFilters) :
    List.Sorted createdDesc (loadBooksFor st uid f) := by
  have hs : List.Sorted createdDesc
      (sortByCreatedDesc (st.filter fun b => b.user_id == uid)) :=
    List.sorted_insertionSort createdDesc _
  exact List.Pairwise.sublist (applyFilters_sublist f _) hs

/-- First of two books tied on `created_at`; its id is the larger one. -/
def c5BookHighId : Book :=
  { id := 2, name := "n", category := "Fiction", price := 1, description := "d",
    user_id := 1, image_url := "", file_url := "f", file_name := "f", file_size := 1,
    created_at := 5, updated_at := 5 }

/-- Second of two books tied on `created_at`; its id is the smaller one. -/
def c5BookLowId : Book :=
  { id := 1, name := "n", category := "Fiction", price := 1, description := "d",
    user_id := 1, image_url := "", file_url := "f", file_name := "f", file_size := 1,
    created_at := 5, updated_at := 5 }

/-- C5 counterexample: two books with equal `created_at` come back in their
underlying order (id 2 before id 1), not in ascending-id order — the query
specifies no tie-break on id. -/
theorem query_order_tie_not_id_ascending :
    loadBooksFor [c5BookHighId, c5BookLowId] 1 noFilters = [c5BookHighId, c5BookLowId] ∧
    c5BookHighId.created_at = c5BookLowId.created_at ∧
    c5BookLowId.id < c5BookHighId.id := by
  decide

/-- Book owned by user 1, used to witness C2. -/
def c2Book : Book :=
  { id := 3, name := "Mine", category := "Drama", price := 7, description := "",
    user_id := 1, image_url := "", file_url := "u", file_name := "m.pdf",
    file_size := 9, created_at := 50, updated_at := 50 }

/-- Update request targeting `c2Book`, used to witness C2. -/
def c2Req : UpdateBookRequest :=
  { id := 3, name := "Stolen", category := "Drama", price := 0, description := "",
    image_url := "", file_url := "u", file_name := "m.pdf", file_size := 9 }

/-- Witness for C2: actor 2 cannot update or delete user 1's book. -/
theorem nonowner_update_delete_forbidden_witness :
    [c2Book].find? (fun x => x.id == c2Req.id) = some c2Book ∧
    ¬ c2Book.user_id = 2 ∧
    (updateBook [c2Book] 2 c2Req 60 = Except.error SvcError.forbidden ∧
      runUpdate [c2Book] 2 c2Req 60 = [c2Book] ∧
      deleteBook [c2Book] 2 c2Req.id = Except.error SvcError.forbidden ∧
      runDelete [c2Book] 2 c2Req.id = [c2Book]) :=
  ⟨by decide, by decide,
    nonowner_update_delete_forbidden [c2Book] 2 60 c2Req c2Book (by decide) (by decide)⟩

/-- C7 (amended): the submit handler's only field validation is that the
price parses and is non-negative; it runs before any upload or service
call (the trace is empty on failure) and fails with the message
`"Please enter a valid price"`. -/
theorem price_check_only_validation (book : Option Book) (fd : FormData)
    (i f : Bool) (env : SubmitEnv)
    (h : fd.priceParsed = none ∨ ∃ p, fd.priceParsed = some p ∧ p < 0) :
    handleSubmit book fd i f env = ([], Except.error "Please enter a valid price") := by
  rcases h with h | ⟨p, hp, hneg⟩
  · simp [handleSubmit, h]
  · simp [handleSubmit, hp, hneg]

/-- Form state with a price of 100000, used for C7. -/
def c7Form : FormData :=
  { name := "B", category := "Fiction", priceParsed := some 100000,
    description := "d" }

/-- Environment with succeeding calls, used for C7. -/
def c7Env : SubmitEnv :=
  { imageUpload := Except.ok "", fileUpload := Except.ok ⟨"u", "f.pdf", 3⟩,
    serviceResult := Except.ok () }

/-- The creation request the handler emits for `c7Form`. -/
def c7Req : CreateBookRequest :=
  { name := "B", category := "Fiction", price := 100000, description := "d",
    image_url := "", file_url := "u", file_name := "f.pdf", file_size := 3 }

/-- The book stored when `c7Req` is committed. -/
def c7Book : Book :=
  { id := 10, name := "B", category := "Fiction", price := 100000,
    description := "d", user_id := 1, image_url := "", file_url := "u",
    file_name := "f.pdf", file_size := 3, created_at := 100, updated_at := 100 }

/-- C7 counterexample: a price of 100000 (above 99999.99) is not rejected:
the handler succeeds, calls `createBook`, and a record with that price is
stored. -/
theorem price_above_max_accepted :
    handleSubmit none c7Form false true c7Env =
      ([SubmitEvent.uploadFile, SubmitEvent.callCreate c7Req], Except.ok ()) ∧
    mkRat 9999999 100 < (100000 : Rat) ∧
    getBookById (runCreate [] 1 10 100 c7Req) 10 = Except.ok c7Book := by
  decide

/-- Witness for C7's amended theorem: a non-numeric price input fails before
any external call. -/
theorem price_check_only_validation_witness :
    handleSubmit none
      { name := "B", category := "Fiction", priceParsed := none, description := "d" }
      true true c7Env = ([], Except.error "Please enter a valid price") :=
  price_check_only_validation none
    { name := "B", category := "Fiction", priceParsed := none, description := "d" }
    true true c7Env (Or.inl rfl)

/-- Form state used for C6 (no book file is selected). -/
def c6Form : FormData :=
  { name := "My Book", category := "Fiction", priceParsed := some 5,
    description := "d" }

/-- Environment with succeeding calls, used for C6. -/
def c6Env : SubmitEnv :=
  { imageUpload := Except.ok "", fileUpload := Except.ok ⟨"", "", 0⟩,
    serviceResult := Except.ok () }

/-- The creation request the handler emits for `c6Form` with no file:
all file fields fall back to their empty defaults. -/
def c6Req : CreateBookRequest :=
  { name := "My Book", category := "Fiction", price := 5, description := "d",
    image_url := "", file_url := "", file_name := "", file_size := 0 }

/-- C6 counterexample: creating with no book file is not rejected — the
handler succeeds and a record with empty file fields is stored. -/
theorem create_without_file_not_rejected :
    handleSubmit none c6Form false false c6Env =
      ([SubmitEvent.callCreate c6Req], Except.ok ()) ∧
    runCreate [] 1 10 100 c6Req =
      [{ id := 10, name := "My Book", category := "Fiction", price := 5,
         description := "d", user_id := 1, image_url := "", file_url := "",
         file_name := "", file_size := 0, created_at := 100,
         updated_at := 100 }] := by
  decide

/-- C6 (amended): when creating, the book file is demanded only by the file
input's `required` attribute; the submit handler itself performs no file
check and, run without one, issues `createBook` with empty file url/name and
size 0, reporting success. -/
theorem create_without_file_amended (fd : FormData) (env : SubmitEnv) (p : Rat)
    (hp : fd.priceParsed = some p) (hnn : ¬ p < 0)
    (hsvc : env.serviceResult = Except.ok ()) :
    bookFileRequiredAttr none = true ∧
    handleSubmit none fd false false env =
      ([SubmitEvent.callCreate
          { name := jsTrim fd.name, category := fd.category, price := p,
            description := jsTrim fd.description, image_url := "", file_url := "",
            file_name := "", file_size := 0 }], Except.ok ()) := by
  refine ⟨rfl, ?_⟩
  simp [handleSubmit, hp, hnn, hsvc]

/-- Witness for C6's amended theorem at a concrete form state. -/
theorem create_without_file_amended_witness :
    bookFileRequiredAttr none = true ∧
    handleSubmit none c6Form false false c6Env =
      ([SubmitEvent.callCreate c6Req], Except.ok ()) :=
  create_without_file_amended c6Form c6Env 5 rfl (by decide) rfl

/-- C3: asset uploads always precede the metadata write (a create/update
call, when present, is the last event of the trace), and a failing upload
aborts the submission: the handler returns the upload's error having made
no `bookService` call, so no book record is written or modified. -/
theorem uploads_precede_metadata_write (book : Option Book) (fd : FormData)
    (env : SubmitEnv) :
    (∀ i f, writesOnlyLast (handleSubmit book fd i f env).1 = true) ∧
    (∀ p e f, fd.priceParsed = some p → ¬ p < 0 →
      env.imageUpload = Except.error e →
      handleSubmit book fd true f env = ([SubmitEvent.uploadImage], Except.error e)) ∧
    (∀ p e, fd.priceParsed = some p → ¬ p < 0 →
      env.fileUpload = Except.error e →
      handleSubmit book fd false true env =
        ([SubmitEvent.uploadFile], Except.error e) ∧
      (∀ u, env.imageUpload = Except.ok u →
        handleSubmit book fd true true env =
          ([SubmitEvent.uploadImage, SubmitEvent.uploadFile], Except.error e))) := by
  refine ⟨?_, ?_, ?_⟩
  · intro i f
    rcases hp : fd.priceParsed with _ | p
    · simp [handleSubmit, hp, writesOnlyLast]
    · by_cases hneg : p < 0
      · simp [handleSubmit, hp, hneg, writesOnlyLast]
      · cases i <;> cases f <;>
          rcases hi : env.imageUpload with ei | ui <;>
          rcases hf : env.fileUpload with ef | uf <;>
          cases book <;>
          simp [handleSubmit, hp, hneg, hi, hf, writesOnlyLast, isWriteEvent,
            List.dropLast, List.all]
  · intro p e f hp hneg hi
    simp [handleSubmit, hp, hneg, hi]
  · intro p e hp hneg hf
    constructor
    · simp [handleSubmit, hp, hneg, hf, Except.map]
    · intro u hi
      simp [handleSubmit, hp, hneg, hi, hf, Except.map]

/-- Form state with a valid price, used to witness C3. -/
def c3Form : FormData :=
  { name := "N", category := "Fiction", priceParsed := some 5, description := "d" }

/-- Environment whose cover upload fails, used to witness C3. -/
def c3Env : SubmitEnv :=
  { imageUpload := Except.error "quota", fileUpload := Except.ok ⟨"u", "f", 1⟩,
    serviceResult := Except.ok () }

/-- Witness for C3: with a failing cover upload the submission stops at the
upload and no service call is made. -/
theorem uploads_precede_metadata_write_witness :
    handleSubmit none c3Form true true c3Env =
      ([SubmitEvent.uploadImage], Except.error "quota") :=
  (uploads_precede_metadata_write none c3Form c3Env).2.1 5 "quota" true rfl
    (by decide) rfl

/-- The update request the handler emits when only a new cover (uploaded to
`u`) is supplied for book `b`. -/
def coverOnlyReq (b : Book) (u : String) : UpdateBookRequest :=
  { id := b.id, name := b.name, category := b.category, price := b.price,
    description := b.description, image_url := u, file_url := b.file_url,
    file_name := b.file_name, file_size := b.file_size }

/-- The stored record after the cover-only update of `b` at time `now`. -/
def coverOnlyResult (b : Book) (u : String) (now : Nat) : Book :=
  { b with image_url := u, updated_at := now }

/-- C9: an owner's update supplying only a new cover image leaves the file
asset (locator, original name, size), name, category, price, description and
`created_at` unchanged, and advances `updated_at`.  The trim-invariance
hypotheses hold for every record this application creates, since both the
create and the update path store trimmed text. -/
theorem cover_only_update_frame (st : List Book) (b : Book) (u : String)
    (env : SubmitEnv) (now : Nat)
    (hfind : st.find? (fun x => x.id == b.id) = some b)
    (hname : jsTrim b.name = b.name) (hdesc : jsTrim b.description = b.description)
    (hpr : ¬ b.price < 0)
    (himg : env.imageUpload = Except.ok u)
    (hsvc : env.serviceResult = Except.ok ())
    (hnow : b.updated_at < now) :
    handleSubmit (some b) (formFromBook b) true false env =
      ([SubmitEvent.uploadImage, SubmitEvent.callUpdate (coverOnlyReq b u)],
        Except.ok ()) ∧
    updateBook st b.user_id (coverOnlyReq b u) now =
      Except.ok (st.map fun x => if x.id == b.id then coverOnlyResult b u now else x,
        coverOnlyResult b u now) ∧
    (coverOnlyResult b u now).file_url = b.file_url ∧
    (coverOnlyResult b u now).file_name = b.file_name ∧
    (coverOnlyResult b u now).file_size = b.file_size ∧
    (coverOnlyResult b u now).name = b.name ∧
    (coverOnlyResult b u now).category = b.category ∧
    (coverOnlyResult b u now).price = b.price ∧
    (coverOnlyResult b u now).description = b.description ∧
    (coverOnlyResult b u now).created_at = b.created_at ∧
    (coverOnlyResult b u now).image_url = u ∧
    b.updated_at < (coverOnlyResult b u now).updated_at := by
  refine ⟨?_, ?_, rfl, rfl, rfl, rfl, rfl, rfl, rfl, rfl, rfl, hnow⟩
  · simp [handleSubmit, formFromBook, hpr, himg, hsvc, coverOnlyReq, hname, hdesc]
  · simp only [updateBook, coverOnlyReq]
    rw [hfind]
    simp [coverOnlyResult, coverOnlyReq]

/-- A book with trimmed text fields, used to witness C9. -/
def c9Book : Book :=
  { id := 4, name := "Clean", category := "Drama", price := 3, description := "ok",
    user_id := 7, image_url := "old", file_url := "fu", file_name := "fn",
    file_size := 11, created_at := 20, updated_at := 20 }

/-- Environment where the cover upload yields `"new"`, used to witness C9. -/
def c9Env : SubmitEnv :=
  { imageUpload := Except.ok "new", fileUpload := Except.ok ⟨"", "", 0⟩,
    serviceResult := Except.ok () }

/-- Witness for C9 at a concrete book, catalog and time. -/
theorem cover_only_update_frame_witness :
    handleSubmit (some c9Book) (formFromBook c9Book) true false c9Env =
      ([SubmitEvent.uploadImage, SubmitEvent.callUpdate (coverOnlyReq c9Book "new")],
        Except.ok ()) ∧
    updateBook [c9Book] c9Book.user_id (coverOnlyReq c9Book "new") 30 =
      Except.ok
        ([c9Book].map fun x =>
          if x.id == c9Book.id then coverOnlyResult c9Book "new" 30 else x,
          coverOnlyResult c9Book "new" 30) ∧
    (coverOnlyResult c9Book "new" 30).file_url = c9Book.file_url ∧
    (coverOnlyResult c9Book "new" 30).file_name = c9Book.file_name ∧
    (coverOnlyResult c9Book "new" 30).file_size = c9Book.file_size ∧
    (coverOnlyResult c9Book "new" 30).name = c9Book.name ∧
    (coverOnlyResult c9Book "new" 30).category = c9Book.category ∧
    (coverOnlyResult c9Book "new" 30).price = c9Book.price ∧
    (coverOnlyResult c9Book "new" 30).description = c9Book.description ∧
    (coverOnlyResult c9Book "new" 30).created_at = c9Book.created_at ∧
    (coverOnlyResult c9Book "new" 30).image_url = "new" ∧
    c9Book.updated_at < (coverOnlyResult c9Book "new" 30).updated_at :=
  cover_only_update_frame [c9Book] c9Book "new" c9Env 30 (by decide) (by decide)
    (by decide) (by decide) rfl rfl (by decide)

/-- A string of whitespace only trims to the empty string. -/
theorem jsTrim_all_white (s : String) (h : s.data.all jsIsWhite = true) :
    jsTrim s = "" := by
  have h1 : s.data.dropWhile jsIsWhite = [] :=
    List.dropWhile_eq_nil_iff.mpr fun x hx => by
      exact List.all_eq_true.mp h x hx
  simp [jsTrim, h1]

/-- C10: every create/update request the submit handler emits carries the
whitespace-trimmed form inputs as its name and description; in particular a
whitespace-only name is persisted as the empty string. -/
theorem persisted_fields_trimmed (book : Option Book) (fd : FormData)
    (i f : Bool) (env : SubmitEnv) :
    (∀ r, SubmitEvent.callCreate r ∈ (handleSubmit book fd i f env).1 →
      r.name = jsTrim fd.name ∧ r.description = jsTrim fd.description) ∧
    (∀ r, SubmitEvent.callUpdate r ∈ (handleSubmit book fd i f env).1 →
      r.name = jsTrim fd.name ∧ r.description = jsTrim fd.description) ∧
    (fd.name.data.all jsIsWhite = true → jsTrim fd.name = "") := by
  refine ⟨?_, ?_, fun h => jsTrim_all_white fd.name h⟩ <;>
  · intro r hr
    rcases hp : fd.priceParsed with _ | p
    · simp [handleSubmit, hp] at hr
    · by_cases hneg : p < 0
      · simp [handleSubmit, hp, hneg] at hr
      · cases i <;> cases f <;>
          rcases hi : env.imageUpload with ei | ui <;>
          rcases hf : env.fileUpload with ef | uf <;>
          cases book <;>
          simp [handleSubmit, hp, hneg, hi, hf, Except.map] at hr <;>
          simp [hr]

/-- Form state whose name is whitespace only, used to witness C10. -/
def c10Form : FormData :=
  { name := "   ", category := "Fiction", priceParsed := some 2,
    description := " x " }

/-- Environment with succeeding calls, used to witness C10. -/
def c10Env : SubmitEnv :=
  { imageUpload := Except.ok "", fileUpload := Except.ok ⟨"", "", 0⟩,
    serviceResult := Except.ok () }

/-- Witness for C10: the whitespace-only name of `c10Form` trims to `""`. -/
theorem persisted_fields_trimmed_witness :
    jsTrim c10Form.name = "" :=
  (persisted_fields_trimmed none c10Form false false c10Env).2.2 (by decide)

end Meboook
